import Mathlib

/-!
Verification of the Voice_Agent python voice service
(`src/python_voice_service/main.py`) against its specification.

The Python functions are shallowly embedded as Lean definitions:
floating-point sample values and timestamps become rationals,
NumPy arrays become lists, and the external backends (Whisper,
Ollama, Piper) are abstracted as explicit outcome parameters so the
handlers' control flow can be stated and proved exactly.
-/

namespace VoiceAgent

/-- `startsWithChars s pat` is true when `pat` is a prefix of `s`. -/
def startsWithChars : List Char → List Char → Bool
  | _, [] => true
  | [], _ :: _ => false
  | a :: as, b :: bs => a = b && startsWithChars as bs

/-- `hasInfixChars s pat` is true when `pat` occurs contiguously in `s`. -/
def hasInfixChars : List Char → List Char → Bool
  | [], pat => startsWithChars [] pat
  | s@(_ :: t), pat => startsWithChars s pat || hasInfixChars t pat

/-- Substring containment, modelling Python's `in` operator on strings. -/
def strContains (s pat : String) : Bool :=
  hasInfixChars s.toList pat.toList

/-- Python `str.strip()`: drop leading and trailing whitespace. -/
def pyStrip (s : String) : String :=
  ⟨((s.data.dropWhile Char.isWhitespace).reverse.dropWhile Char.isWhitespace).reverse⟩

/-- Python `str.lower()`. -/
def pyLower (s : String) : String :=
  ⟨s.data.map Char.toLower⟩

/-- Python `sep.join(parts)`. -/
def pyJoin (sep : String) : List String → String
  | [] => ""
  | p :: ps => ps.foldl (fun acc q => acc ++ sep ++ q) p

theorem pyStrip_data (s : String) :
    (pyStrip s).data =
      List.rdropWhile Char.isWhitespace (s.data.dropWhile Char.isWhitespace) := by
  simp [pyStrip, List.rdropWhile]

theorem dropWhile_rdropWhile_dropWhile (p : Char → Bool) (l : List Char) :
    ((l.dropWhile p).rdropWhile p).dropWhile p = (l.dropWhile p).rdropWhile p := by
  have hDA : (l.dropWhile p).dropWhile p = l.dropWhile p := List.dropWhile_idempotent p l
  rcases hBB : (l.dropWhile p).rdropWhile p with _ | ⟨b, bs⟩
  · simp
  · have hpre := List.rdropWhile_prefix p (l.dropWhile p)
    rw [hBB] at hpre
    obtain ⟨t, ht⟩ := hpre
    have hb : ¬ p b = true := by
      have hall := (List.dropWhile_eq_self_iff).mp hDA
      have h0 : 0 < (l.dropWhile p).length := by
        rw [← ht]
        simp
      have hhead : (l.dropWhile p).get ⟨0, h0⟩ = b := by
        have hA : l.dropWhile p = b :: (bs ++ t) := by
          rw [← ht]
          rfl
        simp [hA]
      have hget := hall h0
      rw [hhead] at hget
      exact hget
    rw [List.dropWhile_cons]
    simp [hb]

/-- Stripping is idempotent (`pyStrip (pyStrip s) = pyStrip s`). -/
theorem pyStrip_idem (s : String) : pyStrip (pyStrip s) = pyStrip s := by
  apply String.ext
  rw [pyStrip_data, pyStrip_data]
  rw [dropWhile_rdropWhile_dropWhile]
  exact List.rdropWhile_idempotent Char.isWhitespace (s.data.dropWhile Char.isWhitespace)

theorem append_ne_empty_left (s t : String) (h : s ≠ "") : s ++ t ≠ "" := by
  intro hc
  apply h
  have hdata : s.data ++ t.data = [] := by
    have := congrArg String.data hc
    simpa using this
  rcases List.append_eq_nil.mp hdata with ⟨hs, _⟩
  cases s
  simp_all

/-- Round-half-to-even on rationals, modelling Python's built-in `round`
applied to the exact value. -/
def roundHalfEven (q : ℚ) : ℤ :=
  let f : ℤ := ⌊q⌋
  let r : ℚ := q - f
  if r < 1/2 then f
  else if 1/2 < r then f + 1
  else if f % 2 = 0 then f else f + 1

/-- `round(x, 4)` from Python: round-half-to-even at 4 decimal digits. -/
def round4 (q : ℚ) : ℚ :=
  (roundHalfEven (q * 10000) : ℚ) / 10000

/-- `round(x, 3)` from Python: round-half-to-even at 3 decimal digits. -/
def round3 (q : ℚ) : ℚ :=
  (roundHalfEven (q * 1000) : ℚ) / 1000

/-! ## Audio Normalizer (`_resample_audio`, main.py lines 303-314) -/

/-- `np.linspace start stop num` with endpoint included (the NumPy default):
`num` evenly spaced values from `start` to `stop`. -/
def linspace (start stop : ℚ) (num : Nat) : List ℚ :=
  (List.range num).map fun (i : Nat) =>
    if num ≤ 1 then start else start + (stop - start) * (i : ℚ) / ((num : ℚ) - 1)

/-- `np.interp x xp fp` specialised to the call site in `_resample_audio`,
where `xp = linspace 0 (n-1) n = [0, 1, ..., n-1]` is the integer index
domain of `fp = ys`: clamp outside the range, otherwise linearly
interpolate between the two neighbouring samples. -/
def interpAt (ys : List ℚ) (x : ℚ) : ℚ :=
  match ys with
  | [] => 0
  | _ :: _ =>
    let n := ys.length
    if x ≤ 0 then ys.getD 0 0
    else if ((n : ℚ) - 1) ≤ x then ys.getD (n - 1) 0
    else
      let k := (⌊x⌋).toNat
      let y0 := ys.getD k 0
      let y1 := ys.getD (k + 1) 0
      y0 + (y1 - y0) * (x - (k : ℚ))

/-- `_resample_audio(samples, source_rate, target_rate)`: pass through when
the rates agree or the buffer is empty, otherwise produce
`max 1 ⌈(len / source_rate) * target_rate⌉` evenly spaced samples by
linear interpolation over the original index domain. -/
def resample_audio (samples : List ℚ) (source_rate target_rate : Nat) : List ℚ :=
  if source_rate = target_rate ∨ samples = [] then samples
  else
    let n := samples.length
    let duration_seconds : ℚ := (n : ℚ) / (source_rate : ℚ)
    let target_length : Nat := max 1 (⌈duration_seconds * (target_rate : ℚ)⌉).toNat
    let target_indices := linspace 0 ((n : ℚ) - 1) target_length
    target_indices.map (interpAt samples)

theorem linspace_length (start stop : ℚ) (num : Nat) :
    (linspace start stop num).length = num := by
  unfold linspace
  rw [List.length_map, List.length_range]

/-- C2: resampling with equal source and target rates returns the buffer
unchanged, and every empty buffer passes through unchanged at any rate pair
(`_resample_audio` takes its early-return branch in both cases). -/
theorem resample_passthrough :
    (∀ (x : List ℚ) (r : Nat), resample_audio x r r = x) ∧
    (∀ (s t : Nat), resample_audio [] s t = []) := by
  constructor
  · intro x r
    simp [resample_audio]
  · intro s t
    simp [resample_audio]

/-- C3: for a non-empty buffer and positive, distinct rates, the resampled
output has length `⌈len(x) * target_rate / source_rate⌉`. -/
theorem resample_length (x : List ℚ) (s t : Nat)
    (hx : x ≠ []) (hs : 0 < s) (ht : 0 < t) (hst : s ≠ t) :
    (resample_audio x s t).length = (⌈(x.length : ℚ) * (t : ℚ) / (s : ℚ)⌉).toNat := by
  have hcond : ¬(s = t ∨ x = []) := by
    push_neg
    exact ⟨hst, hx⟩
  unfold resample_audio
  rw [if_neg hcond]
  simp only [List.length_map, linspace_length]
  have hn : 0 < x.length := List.length_pos.mpr hx
  have hq : (0 : ℚ) < (x.length : ℚ) / (s : ℚ) * (t : ℚ) := by
    apply mul_pos
    · apply div_pos
      · exact_mod_cast hn
      · exact_mod_cast hs
    · exact_mod_cast ht
  have hceil : (1 : ℤ) ≤ ⌈(x.length : ℚ) / (s : ℚ) * (t : ℚ)⌉ := Int.ceil_pos.mpr hq
  have harg : (x.length : ℚ) / (s : ℚ) * (t : ℚ) = (x.length : ℚ) * (t : ℚ) / (s : ℚ) :=
    div_mul_eq_mul_div _ _ _
  rw [harg] at hceil ⊢
  omega

/-- Witness for C3 at `x = [1, 2, 3]`, rates 3 → 2: output length is
`⌈3 * 2 / 3⌉ = 2`. -/
theorem resample_length_witness :
    [(1 : ℚ), 2, 3] ≠ [] ∧ 0 < 3 ∧ 0 < 2 ∧ 3 ≠ 2 ∧
    (resample_audio [1, 2, 3] 3 2).length =
      (⌈(([(1 : ℚ), 2, 3].length : ℕ) : ℚ) * (2 : ℚ) / (3 : ℚ)⌉).toNat := by
  refine ⟨by decide, by decide, by decide, by decide, ?_⟩
  exact resample_length [1, 2, 3] 3 2 (by decide) (by decide) (by decide) (by decide)

/-! ## Session Token Store and Wake Gate

The wake endpoint and its token store are part of this repository's
voice-service variants but are not among the provided source files, so they
are modelled from the specification (§4.3, §4.4, §5). -/

/-- Modelled from the spec: the token TTL, "a fixed configured duration
(default on the order of 30 seconds)". -/
def WAKE_TOKEN_TTL : Nat := 30

/-- Modelled from the spec: the Session Token Store state — a mapping from
opaque token identifier to issuance time, plus a counter providing fresh
identifiers. -/
structure TokenStore where
  nextId : Nat
  entries : List (Nat × Nat)
deriving DecidableEq, Repr

/-- Modelled from the spec: `issue()` "creates and stores a new token with
the current time, returns its identifier; internally also purges any
already-expired entries before inserting". -/
def issueToken (now : Nat) (s : TokenStore) : Nat × TokenStore :=
  let cleaned := s.entries.filter fun e => now ≤ e.2 + WAKE_TOKEN_TTL
  (s.nextId, ⟨s.nextId + 1, (s.nextId, now) :: cleaned⟩)

/-- Modelled from the spec: `consume(token)` "atomically removes and returns
whether the token existed and had not expired; a token found but already
past TTL is treated as absent (removed, consumption fails)". -/
def consumeToken (token now : Nat) (s : TokenStore) : Bool × TokenStore :=
  match s.entries.find? (fun e => e.1 = token) with
  | none => (false, s)
  | some e =>
    let rest := s.entries.filter fun e2 => e2.1 ≠ token
    if now ≤ e.2 + WAKE_TOKEN_TTL then (true, ⟨s.nextId, rest⟩)
    else (false, ⟨s.nextId, rest⟩)

/-- Modelled from the spec: `wake()` "on detection, issue a WakeToken via
the Session Token Store"; no token is issued otherwise. -/
def wake (detected : Bool) (now : Nat) (s : TokenStore) : Option Nat × TokenStore :=
  if detected then
    let r := issueToken now s
    (some r.1, r.2)
  else (none, s)

/-- Modelled from the spec: the token gate at the head of `transcribe()` —
"the token must be present and must successfully `consume()` from the
Session Token Store, else fail with an authorization error". -/
def transcribeGate (token now : Nat) (s : TokenStore) :
    Except (Nat × String) TokenStore :=
  let r := consumeToken token now s
  if r.1 then Except.ok r.2
  else Except.error (403, "Invalid or expired wake token")

theorem find?_filter_ne_none (l : List (Nat × Nat)) (tok : Nat) :
    (l.filter fun e2 => e2.1 ≠ tok).find? (fun e => e.1 = tok) = none := by
  rw [List.find?_eq_none]
  intro x hx
  have hmem := List.of_mem_filter hx
  simpa using hmem

theorem gate_fails_of_absent (tok n2 : Nat) (s2 : TokenStore)
    (h : s2.entries.find? (fun e => e.1 = tok) = none) :
    transcribeGate tok n2 s2 = Except.error (403, "Invalid or expired wake token") := by
  unfold transcribeGate consumeToken
  rw [h]
  rfl

theorem gate_ok_consume (tok n1 : Nat) (s s2 : TokenStore)
    (h : transcribeGate tok n1 s = Except.ok s2) :
    consumeToken tok n1 s = (true, s2) := by
  unfold transcribeGate at h
  by_cases hc : (consumeToken tok n1 s).1 = true
  · rw [if_pos hc] at h
    have h2 : (consumeToken tok n1 s).2 = s2 := by
      cases h
      rfl
    calc consumeToken tok n1 s
        = ((consumeToken tok n1 s).1, (consumeToken tok n1 s).2) := rfl
      _ = (true, s2) := by rw [hc, h2]
  · rw [if_neg hc] at h
    cases h

theorem consume_true_entries (tok n1 : Nat) (s s2 : TokenStore)
    (h : consumeToken tok n1 s = (true, s2)) :
    s2.entries = s.entries.filter fun e2 => e2.1 ≠ tok := by
  unfold consumeToken at h
  cases hfind : s.entries.find? (fun e => e.1 = tok) with
  | none =>
    rw [hfind] at h
    dsimp only [] at h
    have := congrArg Prod.fst h
    simp at this
  | some e =>
    rw [hfind] at h
    dsimp only [] at h
    by_cases hv : n1 ≤ e.2 + WAKE_TOKEN_TTL
    · rw [if_pos hv] at h
      have h2 := congrArg Prod.snd h
      dsimp only [] at h2
      rw [← h2]
    · rw [if_neg hv] at h
      have := congrArg Prod.fst h
      simp at this

/-- C1: a consumed token cannot be consumed again (the second gate attempt
fails with the authorization error), and a token whose TTL has elapsed
fails the gate even on first use. -/
theorem wake_token_single_use_and_ttl :
    (∀ (tok n1 n2 : Nat) (s s2 : TokenStore),
      transcribeGate tok n1 s = Except.ok s2 →
      transcribeGate tok n2 s2 = Except.error (403, "Invalid or expired wake token")) ∧
    (∀ (issuedAt now : Nat) (s : TokenStore) (tok : Nat) (s1 : TokenStore),
      wake true issuedAt s = (some tok, s1) →
      issuedAt + WAKE_TOKEN_TTL < now →
      transcribeGate tok now s1 = Except.error (403, "Invalid or expired wake token")) := by
  constructor
  · intro tok n1 n2 s s2 h
    have hcons := gate_ok_consume tok n1 s s2 h
    have hent := consume_true_entries tok n1 s s2 hcons
    apply gate_fails_of_absent
    rw [hent]
    exact find?_filter_ne_none s.entries tok
  · intro issuedAt now s tok s1 hw hexp
    unfold wake issueToken at hw
    rw [if_pos rfl] at hw
    have htok : tok = s.nextId := by
      have := congrArg Prod.fst hw
      simpa using this.symm
    have hs1 : s1 = ⟨s.nextId + 1,
        (s.nextId, issuedAt) :: s.entries.filter fun e => issuedAt ≤ e.2 + WAKE_TOKEN_TTL⟩ := by
      have := congrArg Prod.snd hw
      simpa using this.symm
    subst htok
    subst hs1
    unfold transcribeGate consumeToken
    rw [List.find?_cons_of_pos _ (by simp)]
    have hnot : ¬ now ≤ issuedAt + WAKE_TOKEN_TTL := by omega
    simp [hnot]

/-- Witness for C1: token `0` issued at time `0` is consumed successfully at
time `5`, a second attempt at time `6` is rejected, and a fresh token
consumed first at time `31 > 30` is rejected. -/
theorem wake_token_single_use_and_ttl_witness :
    transcribeGate 0 5 ⟨1, [(0, 0)]⟩ = Except.ok ⟨1, []⟩ ∧
    transcribeGate 0 6 ⟨1, []⟩ = Except.error (403, "Invalid or expired wake token") ∧
    wake true 0 ⟨0, []⟩ = (some 0, ⟨1, [(0, 0)]⟩) ∧
    transcribeGate 0 31 ⟨1, [(0, 0)]⟩ = Except.error (403, "Invalid or expired wake token") := by
  refine ⟨by rfl, ?_, by rfl, ?_⟩
  · exact wake_token_single_use_and_ttl.1 0 5 6 ⟨1, [(0, 0)]⟩ ⟨1, []⟩ (by rfl)
  · exact wake_token_single_use_and_ttl.2 0 31 ⟨0, []⟩ 0 ⟨1, [(0, 0)]⟩ (by rfl) (by decide)

/-! ## Reply Generator (`_generate_coach_reply`, `respond`, main.py 144-178
and 416-427)

The network interaction with Ollama is abstracted as an explicit outcome:
either the POST raised an `httpx.HTTPError`, or it returned a status code
together with the optional `response` field of the JSON body and the raw
body text. -/

inductive OllamaOutcome where
  | netError (cause : String)
  | reply (status : Nat) (response_field : Option String) (body_text : String)
deriving DecidableEq, Repr

/-- `_generate_coach_reply`: requires status 200 and a non-empty stripped
`response` field; every failure raises `OllamaError` with a readable cause
(here the `Except.error` string). -/
def generate_coach_reply (outcome : OllamaOutcome) : Except String String :=
  match outcome with
  | .netError cause => .error ("Failed to contact Ollama: " ++ cause)
  | .reply status response_field body_text =>
    if status ≠ 200 then
      .error ("Ollama returned status " ++ toString status ++ ": " ++ pyStrip body_text)
    else
      let reply_text := pyStrip (response_field.getD "")
      if reply_text = "" then .error "Ollama response was empty"
      else .ok reply_text

/-- The `/respond` handler: reject blank input with 400, wrap any
`OllamaError` as a 502 with the error text as detail. -/
def respond (outcome : OllamaOutcome) (text : String) : Except (Nat × String) String :=
  let user_text := pyStrip text
  if user_text = "" then .error (400, "Empty text payload")
  else
    match generate_coach_reply outcome with
    | .error e => .error (502, e)
    | .ok reply => .ok reply

/-! ## Speech Synthesizer (`_build_piper_command`, `_invoke_piper`,
`synthesize`, main.py 225-285 and 430-458)

The environment variables read by the handler are gathered in `PiperEnv`
(empty string = unset, as in `_environment`); the behaviour of the Piper
subprocess is abstracted as an explicit `PiperRun` outcome. -/

structure PiperEnv where
  executable : String
  modelPath : String
  configPath : String
  speakerMap : List (String × String)
  defaultSpeaker : String
  noiseScale : String
  noiseW : String
  speakerLatency : String
  sampleRate : Nat
deriving DecidableEq, Repr

/-- An element of the Piper command line; numeric arguments keep their
exact value rather than a decimal rendering. -/
inductive PiperArg where
  | str (s : String)
  | num (q : ℚ)
deriving DecidableEq, Repr

/-- Python `dict.get` on the parsed `PIPER_SPEAKER_MAP`. -/
def lookupMap (m : List (String × String)) (k : String) : Option String :=
  (m.find? fun e => e.1 = k).map Prod.snd

/-- `_resolve_speaker`: a truthy requested voice is looked up (stripped,
lowercased) in the speaker map; otherwise the configured default speaker is
used when non-empty. -/
def resolve_speaker (env : PiperEnv) (requested_voice : Option String) : Option String :=
  let envDefault : Option String :=
    if env.defaultSpeaker = "" then none else some env.defaultSpeaker
  let fromMap : Option String :=
    match requested_voice with
    | some v => if v = "" then none else lookupMap env.speakerMap (pyLower (pyStrip v))
    | none => none
  match fromMap with
  | some speaker => if speaker = "" then envDefault else some speaker
  | none => envDefault

/-- `_build_piper_command`: fails when `PIPER_MODEL_PATH` is unset,
otherwise assembles the Piper argument list, adding a `--length_scale`
whenever the clamped speed deviates from 1 by more than `1e-3`. -/
def build_piper_command (env : PiperEnv) (out_path : String)
    (requested_voice : Option String) (speed : ℚ) : Except String (List PiperArg) :=
  if env.modelPath = "" then
    .error "PIPER_MODEL_PATH environment variable is not configured"
  else
    let cmd : List PiperArg :=
      [.str env.executable, .str "--model", .str env.modelPath,
       .str "--output_file", .str out_path]
    let cmd := if env.configPath = "" then cmd else cmd ++ [.str "--config", .str env.configPath]
    let cmd :=
      match resolve_speaker env requested_voice with
      | some speaker => cmd ++ [.str "--speaker", .str speaker]
      | none => cmd
    let clamped_speed : ℚ := max (1/10) (min 4 (if 0 < speed then speed else 1))
    let cmd :=
      if 1/1000 < |clamped_speed - 1| then
        cmd ++ [.str "--length_scale", .num (round3 (1 / clamped_speed))]
      else cmd
    let cmd := if env.noiseScale = "" then cmd else cmd ++ [.str "--noise_scale", .str env.noiseScale]
    let cmd := if env.noiseW = "" then cmd else cmd ++ [.str "--noise_w", .str env.noiseW]
    let cmd :=
      if env.speakerLatency = "" then cmd
      else cmd ++ [.str "--speaker_latency", .str env.speakerLatency]
    .ok cmd

/-- Outcome of launching the Piper subprocess. -/
inductive PiperRun where
  | exeNotFound
  | launchError (cause : String)
  | completed (returncode : Int) (stderrText : String) (outputExists : Bool) (audio : List Nat)
deriving DecidableEq, Repr

/-- The exception surfaced by `_invoke_piper`: `FileNotFoundError` or
`RuntimeError` with a message. -/
inductive PiperFailure where
  | fileNotFound
  | runtimeError (msg : String)
deriving DecidableEq, Repr

/-- `_invoke_piper`: build the command (propagating its `RuntimeError`),
launch Piper, then fail on a non-zero exit code (with stripped stderr, or a
fixed message when stderr is blank) or on a missing output file. -/
def invoke_piper (env : PiperEnv) (run : PiperRun) (_text : String)
    (requested_voice : Option String) (speed : ℚ) : Except PiperFailure (List Nat) :=
  match build_piper_command env "out.wav" requested_voice speed with
  | .error msg => .error (.runtimeError msg)
  | .ok _ =>
    match run with
    | .exeNotFound => .error .fileNotFound
    | .launchError cause => .error (.runtimeError ("Failed to launch Piper: " ++ cause))
    | .completed rc stderrText outputExists audio =>
      if rc ≠ 0 then
        let stderr_text := pyStrip stderrText
        .error (.runtimeError
          (if stderr_text = "" then "Piper returned a non-zero exit code" else stderr_text))
      else if outputExists = false then
        .error (.runtimeError "Piper did not generate an output file")
      else .ok audio

structure TtsRequest where
  text : String
  voice : Option String
  speed : ℚ
  volume : ℚ
  play : Bool
deriving DecidableEq, Repr

/-- The `/tts` response; the audio bytes are kept raw (the handler
base64-encodes them for transport). -/
structure TtsResponse where
  audio : List Nat
  sample_rate : Nat
deriving DecidableEq, Repr

/-- The `/tts` handler `synthesize`: blank text → 400; `FileNotFoundError`
→ 500 with the executable hint; `RuntimeError` → 503 when the message
mentions `PIPER_MODEL_PATH`, else 500. -/
def synthesize (env : PiperEnv) (run : PiperRun) (payload : TtsRequest) :
    Except (Nat × String) TtsResponse :=
  let text := pyStrip payload.text
  if text = "" then .error (400, "Empty text payload")
  else
    match invoke_piper env run text payload.voice payload.speed with
    | .error .fileNotFound =>
      .error (500,
        "Piper executable was not found. Configure PIPER_EXECUTABLE or install Piper in PATH.")
    | .error (.runtimeError msg) =>
      let message := if pyStrip msg = "" then "Piper synthesis failed" else pyStrip msg
      if strContains message "PIPER_MODEL_PATH" then .error (503, message)
      else .error (500, message)
    | .ok audio => .ok ⟨audio, env.sampleRate⟩

/-- The HTTP status of a handler result, when it is an error. -/
def statusOf (r : Except (Nat × String) TtsResponse) : Option Nat :=
  match r with
  | .error e => some e.1
  | .ok _ => none

/-- C5: for every text input that strips to empty, `respond` and
`synthesize` fail with a 400 client error; the result is the same for every
backend outcome, so no backend behaviour is ever observed. -/
theorem empty_text_client_error (t : String) (h : pyStrip t = "") :
    (∀ outcome, respond outcome t = Except.error (400, "Empty text payload")) ∧
    (∀ (env : PiperEnv) (run : PiperRun) (v : Option String) (sp vol : ℚ) (pl : Bool),
      synthesize env run ⟨t, v, sp, vol, pl⟩ = Except.error (400, "Empty text payload")) := by
  constructor
  · intro outcome
    simp [respond, h]
  · intro env run v sp vol pl
    simp [synthesize, h]

/-- Witness for C5 at `t = "  "` (whitespace only): both handlers return
the 400 client error, for arbitrary concrete backend outcomes. -/
theorem empty_text_client_error_witness :
    pyStrip "  " = "" ∧
    respond (OllamaOutcome.netError "down") "  " = Except.error (400, "Empty text payload") ∧
    synthesize ⟨"piper", "m.onnx", "", [], "", "", "", "", 22050⟩
      (PiperRun.completed 0 "" true [1]) ⟨"  ", none, 1, 1, true⟩ =
      Except.error (400, "Empty text payload") := by
  refine ⟨by decide, ?_, ?_⟩
  · exact (empty_text_client_error "  " (by decide)).1 _
  · exact (empty_text_client_error "  " (by decide)).2 _ _ none 1 1 true

theorem generate_ok_ne_empty (outcome : OllamaOutcome) (r : String)
    (h : generate_coach_reply outcome = Except.ok r) : r ≠ "" := by
  unfold generate_coach_reply at h
  cases outcome with
  | netError cause => cases h
  | reply status rf bt =>
    dsimp only [] at h
    by_cases hs : status ≠ 200
    · rw [if_pos hs] at h
      cases h
    · rw [if_neg hs] at h
      by_cases hr : pyStrip (rf.getD "") = ""
      · rw [if_pos hr] at h
        cases h
      · rw [if_neg hr] at h
        cases h
        exact hr

/-- C6: when the generation backend fails (network error, non-200 status,
or a blank `response` field), `respond` returns a 502 whose detail is the
non-empty `OllamaError` message; and `respond` never succeeds with empty
text. -/
theorem respond_upstream_error :
    (∀ (t cause : String), pyStrip t ≠ "" →
      respond (OllamaOutcome.netError cause) t =
        Except.error (502, "Failed to contact Ollama: " ++ cause) ∧
      ("Failed to contact Ollama: " ++ cause) ≠ "") ∧
    (∀ (t : String) (status : Nat) (rf : Option String) (bt : String),
      pyStrip t ≠ "" → status ≠ 200 →
      respond (OllamaOutcome.reply status rf bt) t =
        Except.error (502, "Ollama returned status " ++ toString status ++ ": " ++ pyStrip bt) ∧
      ("Ollama returned status " ++ toString status ++ ": " ++ pyStrip bt) ≠ "") ∧
    (∀ (t : String) (rf : Option String) (bt : String),
      pyStrip t ≠ "" → pyStrip (rf.getD "") = "" →
      respond (OllamaOutcome.reply 200 rf bt) t =
        Except.error (502, "Ollama response was empty")) ∧
    (∀ (outcome : OllamaOutcome) (t s : String),
      respond outcome t = Except.ok s → s ≠ "") := by
  refine ⟨?_, ?_, ?_, ?_⟩
  · intro t cause ht
    refine ⟨by simp [respond, generate_coach_reply, ht], ?_⟩
    exact append_ne_empty_left _ _ (by decide)
  · intro t status rf bt ht hs
    refine ⟨by simp [respond, generate_coach_reply, ht, hs], ?_⟩
    exact append_ne_empty_left _ _
      (append_ne_empty_left _ _ (append_ne_empty_left _ _ (by decide)))
  · intro t rf bt ht hr
    simp [respond, generate_coach_reply, ht, hr]
  · intro outcome t s h
    unfold respond at h
    dsimp only [] at h
    by_cases ht : pyStrip t = ""
    · rw [if_pos ht] at h
      cases h
    · rw [if_neg ht] at h
      cases hg : generate_coach_reply outcome with
      | error e =>
        rw [hg] at h
        cases h
      | ok r =>
        rw [hg] at h
        have hrs : r = s := by injection h
        subst hrs
        exact generate_ok_ne_empty outcome r hg

/-- Witness for C6 at `t = "hi"`: network failure, status 500, and a blank
`response` field all yield 502 errors, and a successful reply is non-empty. -/
theorem respond_upstream_error_witness :
    pyStrip "hi" ≠ "" ∧ (500 : Nat) ≠ 200 ∧
    pyStrip ((none : Option String).getD "") = "" ∧
    respond (OllamaOutcome.netError "refused") "hi" =
      Except.error (502, "Failed to contact Ollama: " ++ "refused") ∧
    respond (OllamaOutcome.reply 500 none "oops") "hi" =
      Except.error (502, "Ollama returned status " ++ toString (500 : Nat) ++ ": " ++ pyStrip "oops") ∧
    respond (OllamaOutcome.reply 200 none "") "hi" =
      Except.error (502, "Ollama response was empty") ∧
    respond (OllamaOutcome.reply 200 (some "fine") "") "hi" = Except.ok "fine" ∧
    "fine" ≠ "" := by
  refine ⟨by decide, by decide, by decide, ?_, ?_, ?_, ?_, ?_⟩
  · exact (respond_upstream_error.1 "hi" "refused" (by decide)).1
  · exact (respond_upstream_error.2.1 "hi" 500 none "oops" (by decide) (by decide)).1
  · exact respond_upstream_error.2.2.1 "hi" none "" (by decide) (by decide)
  · rfl
  · exact respond_upstream_error.2.2.2 (OllamaOutcome.reply 200 (some "fine") "") "hi" "fine"
      (by rfl)

theorem synthesize_no_model_aux (env : PiperEnv) (run : PiperRun) (p : TtsRequest)
    (ht : pyStrip p.text ≠ "") (hm : env.modelPath = "") :
    synthesize env run p =
      Except.error (503, "PIPER_MODEL_PATH environment variable is not configured") := by
  have h1 : pyStrip "PIPER_MODEL_PATH environment variable is not configured" =
      "PIPER_MODEL_PATH environment variable is not configured" := by decide
  have h2 : strContains "PIPER_MODEL_PATH environment variable is not configured"
      "PIPER_MODEL_PATH" = true := by decide
  simp [synthesize, invoke_piper, build_piper_command, ht, hm, h1, h2]

theorem synthesize_nonzero_exit_aux (env : PiperEnv) (p : TtsRequest) (rc : Int)
    (st : String) (oe : Bool) (audio : List Nat)
    (ht : pyStrip p.text ≠ "") (hm : env.modelPath ≠ "") (hrc : rc ≠ 0) :
    synthesize env (PiperRun.completed rc st oe audio) p =
      Except.error
        (if strContains
            (if pyStrip st = "" then "Piper returned a non-zero exit code" else pyStrip st)
            "PIPER_MODEL_PATH" = true then 503 else 500,
         if pyStrip st = "" then "Piper returned a non-zero exit code" else pyStrip st) := by
  by_cases hst : pyStrip st = ""
  · have h1 : pyStrip "Piper returned a non-zero exit code" =
        "Piper returned a non-zero exit code" := by decide
    have h2 : strContains "Piper returned a non-zero exit code" "PIPER_MODEL_PATH" = false := by
      decide
    simp [synthesize, invoke_piper, build_piper_command, ht, hm, hrc, hst, h1, h2]
  · have hidem : pyStrip (pyStrip st) = pyStrip st := pyStrip_idem st
    by_cases hc : strContains (pyStrip st) "PIPER_MODEL_PATH" = true
    · simp [synthesize, invoke_piper, build_piper_command, ht, hm, hrc, hst, hidem, hc]
    · simp [synthesize, invoke_piper, build_piper_command, ht, hm, hrc, hst, hidem, hc]

theorem synthesize_exe_not_found_aux (env : PiperEnv) (p : TtsRequest)
    (ht : pyStrip p.text ≠ "") (hm : env.modelPath ≠ "") :
    synthesize env PiperRun.exeNotFound p =
      Except.error (500,
        "Piper executable was not found. Configure PIPER_EXECUTABLE or install Piper in PATH.") := by
  simp [synthesize, invoke_piper, build_piper_command, ht, hm]

/-- C7 (amended): a missing `PIPER_MODEL_PATH` yields a 503, a missing
Piper executable yields a 500, and a non-zero exit code yields a 500 with
the stripped stderr as detail — except that a non-zero exit whose surfaced
message itself contains the substring `PIPER_MODEL_PATH` is classified as
the 503 missing-configuration case; all three conditions produce errors,
never a success with empty audio. -/
theorem synthesize_error_mapping :
    (∀ (env : PiperEnv) (run : PiperRun) (p : TtsRequest),
      pyStrip p.text ≠ "" → env.modelPath = "" →
      synthesize env run p =
        Except.error (503, "PIPER_MODEL_PATH environment variable is not configured")) ∧
    (∀ (env : PiperEnv) (p : TtsRequest),
      pyStrip p.text ≠ "" → env.modelPath ≠ "" →
      synthesize env PiperRun.exeNotFound p =
        Except.error (500,
          "Piper executable was not found. Configure PIPER_EXECUTABLE or install Piper in PATH.")) ∧
    (∀ (env : PiperEnv) (p : TtsRequest) (rc : Int) (st : String) (oe : Bool) (audio : List Nat),
      pyStrip p.text ≠ "" → env.modelPath ≠ "" → rc ≠ 0 →
      synthesize env (PiperRun.completed rc st oe audio) p =
        Except.error
          (if strContains
              (if pyStrip st = "" then "Piper returned a non-zero exit code" else pyStrip st)
              "PIPER_MODEL_PATH" = true then 503 else 500,
           if pyStrip st = "" then "Piper returned a non-zero exit code" else pyStrip st)) :=
  ⟨synthesize_no_model_aux, synthesize_exe_not_found_aux, synthesize_nonzero_exit_aux⟩

/-- Witness for C7: with text `"hi"`, an unset model path yields 503, a
missing executable yields 500, and exit code 1 with stderr `"boom"` yields
a 500 carrying `"boom"`. -/
theorem synthesize_error_mapping_witness :
    pyStrip "hi" ≠ "" ∧
    synthesize ⟨"piper", "", "", [], "", "", "", "", 22050⟩
      (PiperRun.completed 0 "" true [1]) ⟨"hi", none, 1, 1, true⟩ =
      Except.error (503, "PIPER_MODEL_PATH environment variable is not configured") ∧
    synthesize ⟨"piper", "m.onnx", "", [], "", "", "", "", 22050⟩
      PiperRun.exeNotFound ⟨"hi", none, 1, 1, true⟩ =
      Except.error (500,
        "Piper executable was not found. Configure PIPER_EXECUTABLE or install Piper in PATH.") ∧
    synthesize ⟨"piper", "m.onnx", "", [], "", "", "", "", 22050⟩
      (PiperRun.completed 1 "boom" true []) ⟨"hi", none, 1, 1, true⟩ =
      Except.error (500, "boom") := by
  refine ⟨by decide, ?_, ?_, ?_⟩
  · exact synthesize_error_mapping.1 _ _ ⟨"hi", none, 1, 1, true⟩ (by decide) (by decide)
  · exact synthesize_error_mapping.2.1 _ ⟨"hi", none, 1, 1, true⟩ (by decide) (by decide)
  · exact (synthesize_error_mapping.2.2 _ ⟨"hi", none, 1, 1, true⟩ 1 "boom" true []
      (by decide) (by decide) (by decide)).trans (congrArg Except.error (by decide))

/-- Counterexample for C7 as stated: a non-zero Piper exit code whose
stderr happens to contain the substring `PIPER_MODEL_PATH` is mapped to
503, not to a 500 server error. -/
theorem synthesize_nonzero_exit_counterexample :
    statusOf (synthesize ⟨"piper", "model.onnx", "", [], "", "", "", "", 22050⟩
      (PiperRun.completed 1 "PIPER_MODEL_PATH" true [])
      ⟨"hi", none, 1, 1, true⟩) = some 503 := by
  rw [synthesize_nonzero_exit_aux _ _ _ _ _ _ (by decide) (by decide) (by decide)]
  decide

/-! ## Model Registry (`_load_model`, main.py 84-117)

`WhisperModel` construction is opaque; the loader is embedded as the plan
of construction attempts it makes and the configuration it settles on.
Whether the CUDA attempt raises is abstracted as the flag `cudaOk`. -/

inductive Device where
  | cpu
  | cuda
deriving DecidableEq, Repr

/-- A `WhisperModel(...)` construction attempt: the device passed and the
compute type passed. -/
structure Attempt where
  device : Device
  computeType : String
deriving DecidableEq, Repr

/-- `_cpu_compute`: demote GPU-tuned precision to `int8`, keep anything
else unchanged. -/
def cpu_compute (ct : String) : String :=
  if strContains (pyLower ct) "float16" then "int8" else ct

/-- The result of running `_load_model` once: the ordered list of
construction attempts and the configuration of the model returned. -/
structure LoadPlan where
  attempts : List Attempt
  result : Attempt
deriving DecidableEq, Repr

/-- `_load_model` (single execution): explicit `"cpu"` preference goes
straight to CPU with the demoted compute type; anything else tries CUDA
with the configured compute type first and falls back to CPU with the
demoted compute type when that construction fails. -/
def load_model (compute_type device_pref : String) (cudaOk : Bool) : LoadPlan :=
  if pyLower device_pref = "cpu" then
    ⟨[⟨.cpu, cpu_compute compute_type⟩], ⟨.cpu, cpu_compute compute_type⟩⟩
  else if cudaOk then
    ⟨[⟨.cuda, compute_type⟩], ⟨.cuda, compute_type⟩⟩
  else
    ⟨[⟨.cuda, compute_type⟩, ⟨.cpu, cpu_compute compute_type⟩],
     ⟨.cpu, cpu_compute compute_type⟩⟩

/-- `@lru_cache(maxsize=1)` on a zero-argument function: a call against a
cache state returns the cached value when present, otherwise runs the body
once; the third component counts body executions in this call. -/
def cachedLoad {α : Type} (body : Unit → α) : Option α → α × Option α × Nat
  | some m => (m, some m, 0)
  | none =>
    let m := body ()
    (m, some m, 1)

/-- C8: unless CPU is explicitly requested the first attempt is CUDA with
the configured compute type; on CUDA failure exactly one CPU retry happens
with the compute type demoted by `cpu_compute` (`float16`-containing types
become `int8`, others unchanged); and under the `lru_cache` wrapper the
body runs at most once — any call after a first call returns the same
instance with zero further executions. -/
theorem load_model_policy :
    (∀ (ct pref : String) (ok : Bool), pyLower pref ≠ "cpu" →
      (load_model ct pref ok).attempts.head? = some ⟨.cuda, ct⟩) ∧
    (∀ (ct pref : String), pyLower pref ≠ "cpu" →
      (load_model ct pref false).attempts = [⟨.cuda, ct⟩, ⟨.cpu, cpu_compute ct⟩]) ∧
    (∀ ct : String, strContains (pyLower ct) "float16" = true → cpu_compute ct = "int8") ∧
    (∀ ct : String, strContains (pyLower ct) "float16" = false → cpu_compute ct = ct) ∧
    (∀ (ct pref : String) (ok : Bool) (c : Option LoadPlan) (m : LoadPlan)
        (c' : Option LoadPlan) (k : Nat),
      cachedLoad (fun _ => load_model ct pref ok) c = (m, c', k) →
      cachedLoad (fun _ => load_model ct pref ok) c' = (m, c', 0)) := by
  refine ⟨?_, ?_, ?_, ?_, ?_⟩
  · intro ct pref ok h
    by_cases hok : ok
    · simp [load_model, h, hok]
    · simp [load_model, h, hok]
  · intro ct pref h
    simp [load_model, h]
  · intro ct h
    simp [cpu_compute, h]
  · intro ct h
    simp [cpu_compute, h]
  · intro ct pref ok c m c' k h
    cases c with
    | some v =>
      simp only [cachedLoad] at h
      have hm : m = v := (congrArg Prod.fst h).symm
      have hc : c' = some v := (congrArg (fun x => x.2.1) h).symm
      subst hm
      subst hc
      rfl
    | none =>
      simp only [cachedLoad] at h
      have hm : m = load_model ct pref ok := (congrArg Prod.fst h).symm
      have hc : c' = some (load_model ct pref ok) := (congrArg (fun x => x.2.1) h).symm
      subst hm
      subst hc
      rfl

/-- Witness for C8 at `compute_type = "int8_float16"`, `device = "auto"`,
CUDA construction failing: one CUDA attempt, one demoted CPU retry, `int8`
demotion, and the cache returning the same plan with zero re-executions. -/
theorem load_model_policy_witness :
    pyLower "auto" ≠ "cpu" ∧
    (load_model "int8_float16" "auto" false).attempts.head? =
      some ⟨Device.cuda, "int8_float16"⟩ ∧
    (load_model "int8_float16" "auto" false).attempts =
      [⟨Device.cuda, "int8_float16"⟩, ⟨Device.cpu, cpu_compute "int8_float16"⟩] ∧
    cpu_compute "int8_float16" = "int8" ∧
    cpu_compute "int8" = "int8" ∧
    cachedLoad (fun _ => load_model "int8_float16" "auto" false)
        (some (load_model "int8_float16" "auto" false)) =
      (load_model "int8_float16" "auto" false,
       some (load_model "int8_float16" "auto" false), 0) := by
  refine ⟨by decide, ?_, ?_, ?_, ?_, ?_⟩
  · exact load_model_policy.1 "int8_float16" "auto" false (by decide)
  · exact load_model_policy.2.1 "int8_float16" "auto" (by decide)
  · exact load_model_policy.2.2.1 "int8_float16" (by decide)
  · exact load_model_policy.2.2.2.1 "int8" (by decide)
  · exact load_model_policy.2.2.2.2 "int8_float16" "auto" false none _ _ _ rfl

/-! ## Transcription Engine (`transcribe`, main.py 322-413)

The Faster-Whisper model is opaque; it is abstracted as a function from the
prepared audio and the decoding arguments to the segment list and
info record. A `Word` mirrors a faster-whisper word (`.end` is spelt
`«end»`); the raw int16 byte decoding is elided — `payload` is the decoded
int16 sample list. -/

structure Word where
  word : String
  start : Option ℚ
  «end» : Option ℚ
  probability : Option ℚ
deriving DecidableEq, Repr

structure Segment where
  text : String
  avg_logprob : Option ℚ
  words : List Word
deriving DecidableEq, Repr

/-- One entry of the Vosk-compatible `result` array. -/
structure WordEntry where
  word : String
  start : ℚ
  «end» : ℚ
  confidence : Option ℚ
deriving DecidableEq, Repr

structure TranscribeInfo where
  language : String
  duration : ℚ
  language_probability : ℚ
deriving DecidableEq, Repr

structure TranscribeResponse where
  text : String
  result : List WordEntry
  language : String
  duration : ℚ
  language_probability : ℚ
  translation : Bool
  avg_logprob : Option ℚ
deriving DecidableEq, Repr

/-- `WAKE_WORD` with its default value (`"rachel"`, stripped, lowercased). -/
def WAKE_WORD : String := pyLower (pyStrip "rachel")

/-- The fixed tuple of near-spellings checked at main.py line 396. -/
def wakeNormalizedForms : List String :=
  ["rachel", "ra chel", "rachal", "richel", "richelle", "rach el"]

/-- The non-empty stripped segment texts (`combined_text_parts`). -/
def segmentTexts (segments : List Segment) : List String :=
  (segments.map fun s => pyStrip s.text).filter fun t => t ≠ ""

/-- The reported per-segment average log-probabilities
(`avg_logprob_values`). -/
def segmentLogprobs (segments : List Segment) : List ℚ :=
  segments.filterMap Segment.avg_logprob

/-- The word entries collected across segments: stripped word text (empty
words skipped), start/end clamped to be non-negative, confidence rounded to
4 digits when present. -/
def wordEntries (segments : List Segment) : List WordEntry :=
  segments.flatMap fun s =>
    s.words.filterMap fun w =>
      let word_text := pyStrip w.word
      if word_text = "" then none
      else some ⟨word_text, max 0 (w.start.getD 0), max 0 (w.«end».getD 0),
        w.probability.map round4⟩

/-- `" ".join(part for part in combined_text_parts if part).strip()`. -/
def full_text_segments (segments : List Segment) : String :=
  pyStrip (pyJoin " " ((segmentTexts segments).filter fun p => p ≠ ""))

/-- The response-building tail of `transcribe` (main.py 358-413): word
aggregation, wake-word text normalization, the reconstructed-from-words
fallback, and the rounded mean log-probability. -/
def transcribe_response (segments : List Segment) (info : TranscribeInfo) :
    TranscribeResponse :=
  let words := wordEntries segments
  let full_text0 := full_text_segments segments
  let full_text1 :=
    if wakeNormalizedForms.contains (pyLower full_text0) then "rachel" else full_text0
  let full_text2 :=
    if full_text1 = "" ∧ words ≠ [] then
      pyStrip (pyJoin " " (words.map WordEntry.word))
    else full_text1
  let vals := segmentLogprobs segments
  { text := full_text2
    result := words
    language := info.language
    duration := info.duration
    language_probability := info.language_probability
    translation := false
    avg_logprob :=
      if vals = [] then none else some (round4 (vals.sum / (vals.length : ℚ))) }

/-- The decoding arguments `transcribe` passes to the model (main.py
343-356): a clamped beam size, fixed language `"en"`, word timestamps, VAD
filtering, the wake-word-biased initial prompt. -/
structure ModelArgs where
  beam_size : Nat
  language : String
  task : String
  word_timestamps : Bool
  vad_filter : Bool
  min_silence_duration_ms : Nat
  speech_pad_ms : Nat
  initial_prompt : String
  temperature : ℚ
  best_of : Nat
deriving DecidableEq, Repr

def transcribe_model_args (beam_size : Nat) : ModelArgs :=
  let effective_beam_size := max 1 (min beam_size 10)
  { beam_size := max 5 (min 10 effective_beam_size)
    language := "en"
    task := "transcribe"
    word_timestamps := true
    vad_filter := true
    min_silence_duration_ms := 300
    speech_pad_ms := 200
    initial_prompt := WAKE_WORD ++ " open play back quit close shut down"
    temperature := 0
    best_of := 1 }

/-- The `/transcribe` handler: reject empty payloads, normalize the audio
to floats in [-1, 1], resample to 16 kHz when needed, invoke the model with
`transcribe_model_args`, and build the response. The `language` query
parameter is accepted but never read. -/
def transcribe_handler (payload : List Int) (sample_rate : Nat)
    (language : Option String) (beam_size : Nat)
    (model : List ℚ → ModelArgs → List Segment × TranscribeInfo) :
    Except (Nat × String) TranscribeResponse :=
  if payload = [] then .error (400, "Empty audio payload")
  else
    let audio : List ℚ := payload.map fun v => (v : ℚ) / 32768
    if audio = [] then .error (400, "Invalid audio payload")
    else
      let audio := if sample_rate ≠ 16000 then resample_audio audio sample_rate 16000 else audio
      let r := model audio (transcribe_model_args beam_size)
      .ok (transcribe_response r.1 r.2)

/-- Counterexample for C4 as stated: a single segment with empty text whose
word list carries the near-spelling `"richel"` makes the handler fall back
to the reconstructed-from-words text, which is returned unrewritten — the
response text is `"richel"`, not the canonical `"rachel"`. -/
theorem wake_normalization_counterexample :
    (transcribe_response [⟨"", none, [⟨"richel", some 0, some 1, none⟩]⟩]
      ⟨"en", 1, 1⟩).text = "richel" := by
  rfl

/-- C4 (amended): the wake-phrase rewrite applies to the text concatenated
from segment texts — whenever that text lowercases to a configured
near-spelling the response text is the canonical `"rachel"` — but the
fallback text reconstructed by joining word tokens (used when all segment
texts are empty) is returned without the rewrite. -/
theorem wake_normalization :
    (∀ (segments : List Segment) (info : TranscribeInfo),
      wakeNormalizedForms.contains (pyLower (full_text_segments segments)) = true →
      (transcribe_response segments info).text = "rachel") ∧
    (∀ (segments : List Segment) (info : TranscribeInfo),
      segmentTexts segments = [] → wordEntries segments ≠ [] →
      (transcribe_response segments info).text =
        pyStrip (pyJoin " " ((wordEntries segments).map WordEntry.word))) := by
  constructor
  · intro segments info h
    have hmem : pyLower (full_text_segments segments) ∈ wakeNormalizedForms := by
      simpa using h
    have hr : ("rachel" : String) ≠ "" := by decide
    simp [transcribe_response, hmem, hr]
  · intro segments info hseg hw
    have h0 : full_text_segments segments = "" := by
      simp [full_text_segments, hseg, pyJoin]
      decide
    have h1 : pyLower "" ∉ wakeNormalizedForms := by decide
    simp [transcribe_response, h0, h1, hw]

/-- Witness for C4 at a segment reading `"Richel"` (rewritten to
`"rachel"`) and at an empty-text segment with word `"richel"` (fallback
text kept verbatim). -/
theorem wake_normalization_witness :
    wakeNormalizedForms.contains (pyLower (full_text_segments [⟨"Richel", none, []⟩])) = true ∧
    (transcribe_response [⟨"Richel", none, []⟩] ⟨"en", 1, 1⟩).text = "rachel" ∧
    segmentTexts [⟨"", none, [⟨"hi there", some 0, some 1, none⟩]⟩] = [] ∧
    wordEntries [⟨"", none, [⟨"hi there", some 0, some 1, none⟩]⟩] ≠ [] ∧
    (transcribe_response [⟨"", none, [⟨"hi there", some 0, some 1, none⟩]⟩] ⟨"en", 1, 1⟩).text =
      pyStrip (pyJoin " "
        ((wordEntries [⟨"", none, [⟨"hi there", some 0, some 1, none⟩]⟩]).map WordEntry.word)) := by
  refine ⟨by decide, ?_, by decide, ?_, ?_⟩
  · exact wake_normalization.1 [⟨"Richel", none, []⟩] ⟨"en", 1, 1⟩ (by decide)
  · intro hc
    cases hc
  · exact wake_normalization.2 [⟨"", none, [⟨"hi there", some 0, some 1, none⟩]⟩] ⟨"en", 1, 1⟩
      (by decide) (by intro hc; cases hc)

theorem transcribe_response_avg (segments : List Segment) (info : TranscribeInfo) :
    (transcribe_response segments info).avg_logprob =
      if segmentLogprobs segments = [] then none
      else some (round4 ((segmentLogprobs segments).sum /
        ((segmentLogprobs segments).length : ℚ))) := rfl

/-- C9: the `avg_logprob` field is present exactly when some segment
reported an average log-probability, and when present it is the arithmetic
mean of the reported values rounded to 4 decimal digits. -/
theorem avg_logprob_spec (segments : List Segment) (info : TranscribeInfo) :
    ((transcribe_response segments info).avg_logprob.isSome = true ↔
      ∃ s ∈ segments, s.avg_logprob.isSome = true) ∧
    (∀ q, (transcribe_response segments info).avg_logprob = some q →
      q = round4 ((segmentLogprobs segments).sum / ((segmentLogprobs segments).length : ℚ))) := by
  constructor
  · rw [transcribe_response_avg]
    by_cases hv : segmentLogprobs segments = []
    · rw [if_pos hv]
      simp only [segmentLogprobs, List.filterMap_eq_nil_iff] at hv
      simp only [Option.isSome_none, Bool.false_eq_true, false_iff]
      rintro ⟨s, hs, hsome⟩
      have := hv s hs
      rw [this] at hsome
      cases hsome
    · rw [if_neg hv]
      simp only [Option.isSome_some, true_iff]
      have hex : ∃ a ∈ segments, Segment.avg_logprob a ≠ none := by
        by_contra hall
        push_neg at hall
        apply hv
        simp only [segmentLogprobs, List.filterMap_eq_nil_iff]
        exact hall
      obtain ⟨s, hs, hne⟩ := hex
      exact ⟨s, hs, Option.isSome_iff_ne_none.mpr hne⟩
  · intro q h
    rw [transcribe_response_avg] at h
    by_cases hv : segmentLogprobs segments = []
    · rw [if_pos hv] at h
      cases h
    · rw [if_neg hv] at h
      have := (Option.some.injEq _ _).mp h
      exact this.symm

/-- Witness for C9 at two segments reporting `-1` and `-2`: the field is
present and equals `round4` of the mean `-3/2`. -/
theorem avg_logprob_spec_witness :
    (transcribe_response [⟨"a", some (-1), []⟩, ⟨"b", some (-2), []⟩]
      ⟨"en", 1, 1⟩).avg_logprob.isSome = true ∧
    (transcribe_response [⟨"a", some (-1), []⟩, ⟨"b", some (-2), []⟩]
      ⟨"en", 1, 1⟩).avg_logprob =
      some (round4 ((segmentLogprobs [⟨"a", some (-1), []⟩, ⟨"b", some (-2), []⟩]).sum /
        ((segmentLogprobs [⟨"a", some (-1), []⟩, ⟨"b", some (-2), []⟩]).length : ℚ))) ∧
    round4 ((segmentLogprobs [⟨"a", some (-1), []⟩, ⟨"b", some (-2), []⟩]).sum /
        ((segmentLogprobs [⟨"a", some (-1), []⟩, ⟨"b", some (-2), []⟩]).length : ℚ)) =
      round4 ((segmentLogprobs [⟨"a", some (-1), []⟩, ⟨"b", some (-2), []⟩]).sum /
        ((segmentLogprobs [⟨"a", some (-1), []⟩, ⟨"b", some (-2), []⟩]).length : ℚ)) := by
  have hv : segmentLogprobs [⟨"a", some (-1), []⟩, ⟨"b", some (-2), []⟩] = [-1, -2] := rfl
  have hne : segmentLogprobs [⟨"a", some (-1), []⟩, ⟨"b", some (-2), []⟩] ≠ [] := by
    rw [hv]
    simp
  have heq : (transcribe_response [⟨"a", some (-1), []⟩, ⟨"b", some (-2), []⟩]
      ⟨"en", 1, 1⟩).avg_logprob =
      some (round4 ((segmentLogprobs [⟨"a", some (-1), []⟩, ⟨"b", some (-2), []⟩]).sum /
        ((segmentLogprobs [⟨"a", some (-1), []⟩, ⟨"b", some (-2), []⟩]).length : ℚ))) := by
    rw [transcribe_response_avg, if_neg hne]
  refine ⟨?_, heq, ?_⟩
  · exact (avg_logprob_spec [⟨"a", some (-1), []⟩, ⟨"b", some (-2), []⟩] ⟨"en", 1, 1⟩).1.mpr
      ⟨⟨"a", some (-1), []⟩, by simp, rfl⟩
  · exact (avg_logprob_spec [⟨"a", some (-1), []⟩, ⟨"b", some (-2), []⟩] ⟨"en", 1, 1⟩).2 _ heq

/-- C10: the `/transcribe` handler never reads the client-supplied
`language` query parameter — any two values produce identical responses —
and the model is always invoked with the fixed language `"en"`. -/
theorem transcribe_language_independent :
    (∀ (payload : List Int) (sample_rate : Nat) (l1 l2 : Option String) (beam_size : Nat)
       (model : List ℚ → ModelArgs → List Segment × TranscribeInfo),
      transcribe_handler payload sample_rate l1 beam_size model =
        transcribe_handler payload sample_rate l2 beam_size model) ∧
    (∀ beam_size : Nat, (transcribe_model_args beam_size).language = "en") := by
  constructor
  · intro payload sample_rate l1 l2 beam_size model
    rfl
  · intro beam_size
    rfl

end VoiceAgent
